import Mathlib

/-! LISA backend (`backend/main.go`): the alert relay

A shallow embedding of the three functions of `backend/main.go`
(`corsMiddleware`, `handleAlert`, `callDeepSeek`) together with the part of
Go's `encoding/json` and `net/http` behaviour they rely on, followed by the
properties of the relay.

Conventions.
* Text is `String`; a body is the text received on the wire (a body that is
  not valid UTF-8 is outside the model).
* Go's `int` is taken to be 64 bits wide; a duration is an `Int` and the
  decoder rejects literals outside the 64-bit range.
* The remote endpoint is a function from the outbound request to what
  `client.Do` returns; every outbound request that is made is recorded.
* A failed single-value type assertion is a run-time panic; it is an outcome
  of its own, distinct from every returned string and every response.
-/

namespace LISA

/-! ## `encoding/json`: values -/

/-- A decoded JSON value.  For an `interface{}` target Go stores `nil`, `bool`,
`float64`, `string`, `[]interface{}` and `map[string]interface{}`; the number
is kept as its literal text (the code never inspects a number), and an object
keeps its members in document order, duplicates included. -/
inductive JSON where
  | null
  | bool (b : Bool)
  | number (lit : String)
  | str (s : String)
  | array (elems : List JSON)
  | object (members : List (String × JSON))

/-- Indexing `m[k]` of the `map[string]interface{}` built from an object's
members: a later duplicate overwrites an earlier one, a missing key gives
`nil`. -/
def mapIndex (m : List (String × JSON)) (k : String) : JSON :=
  match m.reverse.find? (fun kv => kv.1 == k) with
  | some kv => kv.2
  | none => JSON.null

/-! ## `encoding/json`: the scanner (`scanner.go`) with value construction -/

/-- An open container: the elements or members read so far, newest first, and
for an object the key whose value is still to come. -/
inductive Frame where
  | arr (elems : List JSON)
  | obj (members : List (String × JSON)) (key : Option String)

/-- The scanner's step states; the text of a string or number under
construction is carried newest character first.  `hi` is a pending UTF-16 high
surrogate from a `\u` escape. -/
inductive Mode where
  | beginValue
  | beginValueOrEmpty
  | beginStringOrEmpty
  | beginString
  | endValue
  | inString (acc : List Char) (hi : Option Nat)
  | inStringEsc (acc : List Char) (hi : Option Nat)
  | inStringEscU (acc : List Char) (hi : Option Nat) (seen : Nat) (code : Nat)
  | neg (acc : List Char)
  | zero (acc : List Char)
  | one (acc : List Char)
  | dot (acc : List Char)
  | dot0 (acc : List Char)
  | e (acc : List Char)
  | eSign (acc : List Char)
  | e0 (acc : List Char)
  | literal (expect : List Char) (v : JSON)

/-- Result of feeding one character. -/
inductive Step where
  | more (stack : List Frame) (mode : Mode)
  | doneAfter (v : JSON)
  | doneBefore (v : JSON)
  | fail

def maxNestingDepth : Nat := 10000

def isSpace (c : Char) : Bool :=
  c == ' ' || c == '\t' || c == '\r' || c == '\n'

def isDigit (c : Char) : Bool := '0' ≤ c && c ≤ '9'

def hexValue (c : Char) : Option Nat :=
  if '0' ≤ c && c ≤ '9' then some (c.toNat - 48)
  else if 'a' ≤ c && c ≤ 'f' then some (c.toNat - 87)
  else if 'A' ≤ c && c ≤ 'F' then some (c.toNat - 55)
  else none

def replacementChar : Char := Char.ofNat 0xFFFD

/-- Characters owed for a pending high surrogate that found no partner. -/
def flushHi (acc : List Char) (hi : Option Nat) : List Char :=
  match hi with
  | some _ => replacementChar :: acc
  | none => acc

/-- A completed `\uXXXX` escape with code unit `u` (`unquote` in `decode.go`):
surrogate halves combine when a high one is directly followed by a low one,
and a half without partner becomes U+FFFD. -/
def pushUnit (acc : List Char) (hi : Option Nat) (u : Nat) : List Char × Option Nat :=
  if 0xD800 ≤ u ∧ u < 0xDC00 then
    (flushHi acc hi, some u)
  else if 0xDC00 ≤ u ∧ u < 0xE000 then
    match hi with
    | some h => (Char.ofNat (0x10000 + (h - 0xD800) * 0x400 + (u - 0xDC00)) :: acc, none)
    | none => (replacementChar :: acc, none)
  else
    (Char.ofNat u :: flushHi acc hi, none)

/-- A value is complete: hand it to the innermost open container. -/
def deliver (stack : List Frame) (v : JSON) : Step :=
  match stack with
  | [] => Step.doneAfter v
  | Frame.arr es :: rest => Step.more (Frame.arr (v :: es) :: rest) Mode.endValue
  | Frame.obj ms (some k) :: rest => Step.more (Frame.obj ((k, v) :: ms) none :: rest) Mode.endValue
  | Frame.obj _ none :: _ => Step.fail

/-- A string is complete: an object awaiting a key takes it as the key,
otherwise it is a value. -/
def deliverString (stack : List Frame) (s : String) : Step :=
  match stack with
  | Frame.obj ms none :: rest => Step.more (Frame.obj ms (some s) :: rest) Mode.endValue
  | _ => deliver stack (JSON.str s)

def pushFrame (stack : List Frame) (f : Frame) (mode : Mode) : Step :=
  if stack.length + 1 ≤ maxNestingDepth then Step.more (f :: stack) mode else Step.fail

/-- The function `stateBeginValue`. -/
def stateBeginValue (stack : List Frame) (c : Char) : Step :=
  if isSpace c then Step.more stack Mode.beginValue
  else if c == '{' then pushFrame stack (Frame.obj [] none) Mode.beginStringOrEmpty
  else if c == '[' then pushFrame stack (Frame.arr []) Mode.beginValueOrEmpty
  else if c == '"' then Step.more stack (Mode.inString [] none)
  else if c == '-' then Step.more stack (Mode.neg [c])
  else if c == '0' then Step.more stack (Mode.zero [c])
  else if c == 't' then Step.more stack (Mode.literal ['r', 'u', 'e'] (JSON.bool true))
  else if c == 'f' then Step.more stack (Mode.literal ['a', 'l', 's', 'e'] (JSON.bool false))
  else if c == 'n' then Step.more stack (Mode.literal ['u', 'l', 'l'] JSON.null)
  else if isDigit c then Step.more stack (Mode.one [c])
  else Step.fail

/-- The function `stateBeginString`. -/
def stateBeginString (stack : List Frame) (c : Char) : Step :=
  if isSpace c then Step.more stack Mode.beginString
  else if c == '"' then Step.more stack (Mode.inString [] none)
  else Step.fail

/-- The function `stateEndValue`, entered after a value inside a container (or
after an object key). -/
def stateEndValue (stack : List Frame) (c : Char) : Step :=
  match stack with
  | [] => Step.fail
  | Frame.obj ms (some k) :: rest =>
      if isSpace c then Step.more stack Mode.endValue
      else if c == ':' then Step.more (Frame.obj ms (some k) :: rest) Mode.beginValue
      else Step.fail
  | Frame.obj ms none :: rest =>
      if isSpace c then Step.more stack Mode.endValue
      else if c == ',' then Step.more (Frame.obj ms none :: rest) Mode.beginString
      else if c == '}' then deliver rest (JSON.object ms.reverse)
      else Step.fail
  | Frame.arr es :: rest =>
      if isSpace c then Step.more stack Mode.endValue
      else if c == ',' then Step.more (Frame.arr es :: rest) Mode.beginValue
      else if c == ']' then deliver rest (JSON.array es.reverse)
      else Step.fail

/-- A number or literal ends at `c`, which is not part of it: at top level the
value is complete and `c` is left unread, inside a container `c` is handled by
`stateEndValue`. -/
def endBefore (stack : List Frame) (v : JSON) (c : Char) : Step :=
  match deliver stack v with
  | Step.more stack1 _ => stateEndValue stack1 c
  | Step.doneAfter v1 => Step.doneBefore v1
  | other => other

def numberOf (acc : List Char) : JSON := JSON.number (String.mk acc.reverse)

/-- The function `state0` (and the tail of `state1`). -/
def state0 (stack : List Frame) (acc : List Char) (c : Char) : Step :=
  if c == '.' then Step.more stack (Mode.dot (c :: acc))
  else if c == 'e' || c == 'E' then Step.more stack (Mode.e (c :: acc))
  else endBefore stack (numberOf acc) c

/-- The function `stateESign` (and the tail of `stateE`). -/
def stateESign (stack : List Frame) (acc : List Char) (c : Char) : Step :=
  if isDigit c then Step.more stack (Mode.e0 (c :: acc)) else Step.fail

/-- One scanner step: the state functions of `scanner.go`. -/
def step (stack : List Frame) (mode : Mode) (c : Char) : Step :=
  match mode with
  | Mode.beginValue => stateBeginValue stack c
  | Mode.beginValueOrEmpty =>
      if isSpace c then Step.more stack Mode.beginValueOrEmpty
      else if c == ']' then stateEndValue stack c
      else stateBeginValue stack c
  | Mode.beginStringOrEmpty =>
      if isSpace c then Step.more stack Mode.beginStringOrEmpty
      else if c == '}' then stateEndValue stack c
      else stateBeginString stack c
  | Mode.beginString => stateBeginString stack c
  | Mode.endValue => stateEndValue stack c
  | Mode.inString acc hi =>
      if c == '"' then deliverString stack (String.mk (flushHi acc hi).reverse)
      else if c == '\\' then Step.more stack (Mode.inStringEsc acc hi)
      else if c.toNat < 0x20 then Step.fail
      else Step.more stack (Mode.inString (c :: flushHi acc hi) none)
  | Mode.inStringEsc acc hi =>
      if c == 'u' then Step.more stack (Mode.inStringEscU acc hi 0 0)
      else if c == 'b' then Step.more stack (Mode.inString (Char.ofNat 8 :: flushHi acc hi) none)
      else if c == 'f' then Step.more stack (Mode.inString (Char.ofNat 12 :: flushHi acc hi) none)
      else if c == 'n' then Step.more stack (Mode.inString ('\n' :: flushHi acc hi) none)
      else if c == 'r' then Step.more stack (Mode.inString ('\r' :: flushHi acc hi) none)
      else if c == 't' then Step.more stack (Mode.inString ('\t' :: flushHi acc hi) none)
      else if c == '\\' || c == '/' || c == '"' then
        Step.more stack (Mode.inString (c :: flushHi acc hi) none)
      else Step.fail
  | Mode.inStringEscU acc hi seen code =>
      match hexValue c with
      | none => Step.fail
      | some d =>
          if seen < 3 then Step.more stack (Mode.inStringEscU acc hi (seen + 1) (code * 16 + d))
          else
            let r := pushUnit acc hi (code * 16 + d)
            Step.more stack (Mode.inString r.1 r.2)
  | Mode.neg acc =>
      if c == '0' then Step.more stack (Mode.zero (c :: acc))
      else if isDigit c then Step.more stack (Mode.one (c :: acc))
      else Step.fail
  | Mode.zero acc => state0 stack acc c
  | Mode.one acc =>
      if isDigit c then Step.more stack (Mode.one (c :: acc)) else state0 stack acc c
  | Mode.dot acc =>
      if isDigit c then Step.more stack (Mode.dot0 (c :: acc)) else Step.fail
  | Mode.dot0 acc =>
      if isDigit c then Step.more stack (Mode.dot0 (c :: acc))
      else if c == 'e' || c == 'E' then Step.more stack (Mode.e (c :: acc))
      else endBefore stack (numberOf acc) c
  | Mode.e acc =>
      if c == '+' || c == '-' then Step.more stack (Mode.eSign (c :: acc))
      else stateESign stack acc c
  | Mode.eSign acc => stateESign stack acc c
  | Mode.e0 acc =>
      if isDigit c then Step.more stack (Mode.e0 (c :: acc))
      else endBefore stack (numberOf acc) c
  | Mode.literal expect v =>
      match expect with
      | [] => Step.fail
      | [x] => if c == x then deliver stack v else Step.fail
      | x :: xs => if c == x then Step.more stack (Mode.literal xs v) else Step.fail

/-- End of input: only a top-level number that could stop here is complete. -/
def atEOF (stack : List Frame) (mode : Mode) : Option JSON :=
  match stack, mode with
  | [], Mode.zero acc => some (numberOf acc)
  | [], Mode.one acc => some (numberOf acc)
  | [], Mode.dot0 acc => some (numberOf acc)
  | [], Mode.e0 acc => some (numberOf acc)
  | _, _ => none

/-- Run the scanner until the first complete value; the unread rest is
returned with it. -/
def scan (stack : List Frame) (mode : Mode) : List Char → Option (JSON × List Char)
  | [] => (atEOF stack mode).map (fun v => (v, []))
  | c :: cs =>
      match step stack mode c with
      | Step.more stack1 mode1 => scan stack1 mode1 cs
      | Step.doneAfter v => some (v, cs)
      | Step.doneBefore v => some (v, c :: cs)
      | Step.fail => none

/-- The first JSON value of a text (what `Decoder.readValue` delimits), with
the text after it. -/
def readValue (body : String) : Option (JSON × List Char) :=
  scan [] Mode.beginValue body.data

/-- A whole text as one JSON value (`checkValid` followed by decoding): after
the value only white space may follow. -/
def parseDocument (body : String) : Option JSON :=
  match readValue body with
  | some (v, rest) => if rest.all isSpace then some v else none
  | none => none

/-- The `map[string]interface{}` left in `result` by
`json.Unmarshal(body, &result)`, whose error the code drops: the members of
the document when it is one JSON object, and no entry at all (the `nil` map)
when the text is not valid JSON or its value is not an object. -/
def unmarshalMap (body : String) : List (String × JSON) :=
  match parseDocument body with
  | some (JSON.object ms) => ms
  | _ => []

/-! ## The data model of `main.go` -/

def API_KEY : String := "sk-d54b8e081f874934a0721dbf297921af"
def LLM_URL : String := "https://api.deepseek.com/chat/completions"

structure AlertRequest where
  UserID : String
  Event : String
  Duration : Int
deriving DecidableEq

structure AlertResponse where
  Message : String
deriving DecidableEq

structure Message where
  Role : String
  Content : String
deriving DecidableEq

structure DeepSeekRequest where
  Model : String
  Messages : List Message
deriving DecidableEq

/-! ## `encoding/json`: decoding into `AlertRequest` (`decode.go`) -/

/-- The three fields of `AlertRequest`, by their `json` tags. -/
inductive Field where
  | userID
  | event
  | duration
deriving DecidableEq

/-- Simple case folding of one character, as far as it can reach an ASCII
letter: upper case to lower case, the Kelvin sign to `k`, the long s to `s`. -/
def foldRune (c : Char) : Char :=
  if 'A' ≤ c && c ≤ 'Z' then Char.ofNat (c.toNat + 32)
  else if c.toNat = 0x212A then 'k'
  else if c.toNat = 0x17F then 's'
  else c

/-- The field an object key selects: the tag must match up to case folding;
any other key is ignored by the decoder. -/
def fieldOf (key : String) : Option Field :=
  let folded := String.mk (key.data.map foldRune)
  if folded = "user_id" then some Field.userID
  else if folded = "event" then some Field.event
  else if folded = "duration_seconds" then some Field.duration
  else none

def digitsValue (ds : List Char) : Option Nat :=
  if ds.isEmpty || !ds.all isDigit then none
  else some (ds.foldl (fun n c => n * 10 + (c.toNat - 48)) 0)

/-- A decimal integer literal read exactly: digits with an optional minus
sign. -/
def readDecimal (lit : String) : Option Int :=
  match lit.data with
  | '-' :: ds => (digitsValue ds).map (fun n => -(n : Int))
  | ds => (digitsValue ds).map (fun n => (n : Int))

/-- The call `strconv.ParseInt(lit, 10, 64)` on a JSON number literal: a
decimal integer within the 64-bit range; a fraction, an exponent or a value
out of range is an error. -/
def parseInt (lit : String) : Option Int :=
  match readDecimal lit with
  | some n => if -(2 ^ 63 : Int) ≤ n ∧ n < (2 ^ 63 : Int) then some n else none
  | none => none

/-- Decoder state while an object is stored into the struct: the struct so
far and whether an `UnmarshalTypeError` has been saved (decoding goes on after
one, and the error is returned at the end). -/
structure Decoding where
  req : AlertRequest
  savedError : Bool
deriving DecidableEq

/-- Store one member `key: value` of the object into the struct. -/
def storeMember (st : Decoding) (kv : String × JSON) : Decoding :=
  match fieldOf kv.1 with
  | none => st
  | some Field.userID =>
      match kv.2 with
      | JSON.str s => { st with req := { st.req with UserID := s } }
      | JSON.null => st
      | _ => { st with savedError := true }
  | some Field.event =>
      match kv.2 with
      | JSON.str s => { st with req := { st.req with Event := s } }
      | JSON.null => st
      | _ => { st with savedError := true }
  | some Field.duration =>
      match kv.2 with
      | JSON.number lit =>
          match parseInt lit with
          | some n => { st with req := { st.req with Duration := n } }
          | none => { st with savedError := true }
      | JSON.null => st
      | _ => { st with savedError := true }

/-- The zero value of `var req AlertRequest`. -/
def zeroAlertRequest : AlertRequest := { UserID := "", Event := "", Duration := 0 }

/-- Store a JSON value into `req`: an object member by member, `null` as
a no-op, anything else is a type error.  `none` is a non-nil error. -/
def unmarshalAlertRequest (v : JSON) : Option AlertRequest :=
  match v with
  | JSON.object ms =>
      let st := ms.foldl storeMember { req := zeroAlertRequest, savedError := false }
      if st.savedError then none else some st.req
  | JSON.null => some zeroAlertRequest
  | _ => none

/-- The call `json.NewDecoder(r.Body).Decode(&req)`: the first JSON value of
the body is read and stored; what follows it in the body is never read. -/
def decodeAlertRequest (body : String) : Option AlertRequest :=
  match readValue body with
  | some (v, _) => unmarshalAlertRequest v
  | none => none

/-! ## `net/http`: requests, the response writer, the outbound client -/

structure Request where
  Method : String
  Path : String
  Header : List (String × String)
  Body : String
deriving DecidableEq

/-- What has been written to the response body: plain text, or the line
`json.Encoder` writes for an `AlertResponse`. -/
inductive Chunk where
  | text (s : String)
  | json (v : AlertResponse)
deriving DecidableEq

/-- The response writer: the header map, the status once the header has been
written, and the body so far. -/
structure ResponseWriter where
  header : List (String × String)
  status : Option Nat
  body : List Chunk
deriving DecidableEq

def headerDel (h : List (String × String)) (k : String) : List (String × String) :=
  h.filter (fun kv => kv.1 != k)

/-- The method `Header().Set`: the key's previous values are replaced. -/
def headerSet (h : List (String × String)) (k v : String) : List (String × String) :=
  headerDel h k ++ [(k, v)]

def headerGet (h : List (String × String)) (k : String) : Option String :=
  h.lookup k

def ResponseWriter.setHeader (w : ResponseWriter) (k v : String) : ResponseWriter :=
  { w with header := headerSet w.header k v }

/-- The method `WriteHeader`: only the first call takes effect. -/
def ResponseWriter.writeHeader (w : ResponseWriter) (code : Nat) : ResponseWriter :=
  match w.status with
  | none => { w with status := some code }
  | some _ => w

/-- The method `Write`: the header goes out with status 200 if it has not
been written yet. -/
def ResponseWriter.write (w : ResponseWriter) (c : Chunk) : ResponseWriter :=
  let w1 := w.writeHeader 200
  { w1 with body := w1.body ++ [c] }

/-- The function `http.Error`. -/
def httpError (w : ResponseWriter) (msg : String) (code : Nat) : ResponseWriter :=
  let w1 := { w with header := headerDel w.header "Content-Length" }
  let w2 := w1.setHeader "Content-Type" "text/plain; charset=utf-8"
  let w3 := w2.setHeader "X-Content-Type-Options" "nosniff"
  (w3.writeHeader code).write (Chunk.text (msg ++ "\n"))

/-- A writer nothing has been written to, with a given header map. -/
def freshWriter (h : List (String × String)) : ResponseWriter :=
  { header := h, status := none, body := [] }

/-- The request `callDeepSeek` sends; `Body` is the value `json.Marshal`
serialises, `Timeout` the client's timeout in seconds. -/
structure OutboundRequest where
  Method : String
  URL : String
  Header : List (String × String)
  Body : DeepSeekRequest
  Timeout : Nat
deriving DecidableEq

/-- What `client.Do` returns: a transport error with its message, or a
response with status code and body. -/
inductive DoResult where
  | err (msg : String)
  | resp (statusCode : Nat) (body : String)
deriving DecidableEq

/-- The remote side, as seen through `client.Do`. -/
abbrev Client := OutboundRequest → DoResult

/-- How a call of `callDeepSeek` ends: it returns a string or it panics. -/
inductive Returned where
  | value (s : String)
  | panic
deriving DecidableEq

structure Call where
  ret : Returned
  outbound : List OutboundRequest
deriving DecidableEq

/-- How serving a request ends: the writer, the outbound requests made, and
whether the handler panicked. -/
structure Served where
  w : ResponseWriter
  outbound : List OutboundRequest
  panicked : Bool
deriving DecidableEq

abbrev HandlerFunc := ResponseWriter → Request → Served

structure Response where
  status : Nat
  header : List (String × String)
  body : List Chunk
deriving DecidableEq

/-- The response the caller receives: none when the handler panicked (the
server drops the connection), else the header map and body written, with
status 200 when no status was written. -/
def response (s : Served) : Option Response :=
  if s.panicked then none
  else some { status := s.w.status.getD 200, header := s.w.header, body := s.w.body }

/-! ## `main.go` -/

/-- The verb `%d` of `fmt.Sprintf` for an `int`. -/
def fmtInt (d : Int) : String :=
  match d with
  | Int.ofNat n => Nat.repr n
  | Int.negSucc n => "-" ++ Nat.repr (n + 1)

def prompt (duration : Int) : String :=
  "The user has been sitting still for " ++ fmtInt duration ++
    " seconds. Write a creative, varied, and very short (max 15 words) warning to get them moving. Don't be boring."

def requestBody (duration : Int) : DeepSeekRequest :=
  { Model := "deepseek-chat",
    Messages := [
      { Role := "system", Content := "You are a helpful assistant." },
      { Role := "user", Content := prompt duration } ] }

/-- The request built by `http.NewRequest` and the two `Header.Set` calls,
sent by a client with a 10 second timeout. -/
def newRequest (duration : Int) : OutboundRequest :=
  { Method := "POST",
    URL := LLM_URL,
    Header := headerSet (headerSet [] "Content-Type" "application/json")
      "Authorization" ("Bearer " ++ API_KEY),
    Body := requestBody duration,
    Timeout := 10 }

/-- The extraction at the end of `callDeepSeek`: the comma-ok assertion on
`result["choices"]` guards the fallback, the three assertions below it are
single-valued and panic when they fail. -/
def extractContent (result : List (String × JSON)) : Returned :=
  match mapIndex result "choices" with
  | JSON.array (first :: _) =>
      match first with
      | JSON.object choice =>
          match mapIndex choice "message" with
          | JSON.object message =>
              match mapIndex message "content" with
              | JSON.str s => Returned.value s
              | _ => Returned.panic
          | _ => Returned.panic
      | _ => Returned.panic
  | _ => Returned.value "Take a break! (AI Connection issue)"

def callDeepSeek (client : Client) (duration : Int) : Call :=
  let req := newRequest duration
  match client req with
  | DoResult.err e => { ret := Returned.value ("Error calling AI: " ++ e), outbound := [req] }
  | DoResult.resp _ body => { ret := extractContent (unmarshalMap body), outbound := [req] }

def handleAlert (client : Client) : HandlerFunc := fun w r =>
  match decodeAlertRequest r.Body with
  | none => { w := httpError w "Invalid JSON" 400, outbound := [], panicked := false }
  | some req =>
      let call := callDeepSeek client req.Duration
      match call.ret with
      | Returned.panic => { w := w, outbound := call.outbound, panicked := true }
      | Returned.value llmResponse =>
          let w1 := w.setHeader "Content-Type" "application/json"
          { w := w1.write (Chunk.json { Message := llmResponse }),
            outbound := call.outbound, panicked := false }

def corsMiddleware (next : HandlerFunc) : HandlerFunc := fun w r =>
  let w1 := w.setHeader "Access-Control-Allow-Origin" "*"
  let w2 := w1.setHeader "Access-Control-Allow-Methods" "POST, GET, OPTIONS, PUT, DELETE"
  let w3 := w2.setHeader "Access-Control-Allow-Headers"
    "Accept, Content-Type, Content-Length, Accept-Encoding, X-CSRF-Token, Authorization"
  if r.Method = "OPTIONS" then
    { w := w3.writeHeader 200, outbound := [], panicked := false }
  else
    next w3 r

/-- The route `/api/alert` as registered in `main`: the handler wrapped in
the middleware, started on a fresh writer. -/
def serveAlert (client : Client) (r : Request) : Served :=
  corsMiddleware (handleAlert client) (freshWriter []) r

/-! ## Shape of a value with respect to `AlertRequest` -/

def isStringOrNull (v : JSON) : Bool :=
  match v with
  | JSON.str _ => true
  | JSON.null => true
  | _ => false

def isIntOrNull (v : JSON) : Bool :=
  match v with
  | JSON.number lit => (parseInt lit).isSome
  | JSON.null => true
  | _ => false

/-- A member is structurally valid for `AlertRequest`: a key that names no
field is free, `user_id` and `event` hold a string, `duration_seconds` an
integer that fits an `int`; `null` is allowed for each. -/
def memberFits (kv : String × JSON) : Bool :=
  match fieldOf kv.1 with
  | none => true
  | some Field.userID => isStringOrNull kv.2
  | some Field.event => isStringOrNull kv.2
  | some Field.duration => isIntOrNull kv.2

/-- A value is structurally valid for `AlertRequest`: `null`, or an object
all of whose members are. -/
def fitsAlertRequest (v : JSON) : Bool :=
  match v with
  | JSON.object ms => ms.all memberFits
  | JSON.null => true
  | _ => false

/-- The header map after the three `Set` calls of the middleware on a fresh
writer. -/
def corsWriter : ResponseWriter :=
  ((((freshWriter []).setHeader "Access-Control-Allow-Origin" "*").setHeader
      "Access-Control-Allow-Methods" "POST, GET, OPTIONS, PUT, DELETE").setHeader
    "Access-Control-Allow-Headers"
    "Accept, Content-Type, Content-Length, Accept-Encoding, X-CSRF-Token, Authorization")

/-! ## Properties of `callDeepSeek` -/

theorem callDeepSeek_outbound (client : Client) (duration : Int) :
    (callDeepSeek client duration).outbound = [newRequest duration] := by
  cases hdo : client (newRequest duration) <;> simp [callDeepSeek, hdo]

theorem callDeepSeek_ret_err (client : Client) (duration : Int) (e : String)
    (hdo : client (newRequest duration) = DoResult.err e) :
    (callDeepSeek client duration).ret = Returned.value ("Error calling AI: " ++ e) := by
  simp [callDeepSeek, hdo]

theorem callDeepSeek_ret_resp (client : Client) (duration : Int) (statusCode : Nat)
    (body : String) (hdo : client (newRequest duration) = DoResult.resp statusCode body) :
    (callDeepSeek client duration).ret = extractContent (unmarshalMap body) := by
  simp [callDeepSeek, hdo]

theorem callDeepSeek_congr (client1 client2 : Client) (duration : Int)
    (hsame : client1 (newRequest duration) = client2 (newRequest duration)) :
    callDeepSeek client1 duration = callDeepSeek client2 duration := by
  simp [callDeepSeek, hsame]

theorem unmarshalMap_object (body : String) (members : List (String × JSON))
    (hbody : parseDocument body = some (JSON.object members)) :
    unmarshalMap body = members := by
  simp [unmarshalMap, hbody]

theorem mapIndex_absent (m : List (String × JSON)) (k : String)
    (habsent : ∀ kv ∈ m, kv.1 ≠ k) : mapIndex m k = JSON.null := by
  have hnone : m.reverse.find? (fun kv => kv.1 == k) = none := by
    rw [List.find?_eq_none]
    intro kv hkv
    have hne := habsent kv (List.mem_reverse.mp hkv)
    simpa using hne
  simp [mapIndex, hnone]

/-- C1: when the response body is a JSON object whose `choices` entry is a
non-empty array, whose first element is an object, whose `message` entry is an
object, whose `content` entry is the string `s`, then `callDeepSeek` returns
exactly `s`, for every duration, status code, further choices and further
fields. -/
theorem callDeepSeek_returns_first_content (client : Client) (duration : Int)
    (statusCode : Nat) (body : String) (members choice message : List (String × JSON))
    (others : List JSON) (s : String)
    (hdo : client (newRequest duration) = DoResult.resp statusCode body)
    (hbody : parseDocument body = some (JSON.object members))
    (hchoices : mapIndex members "choices" = JSON.array (JSON.object choice :: others))
    (hmessage : mapIndex choice "message" = JSON.object message)
    (hcontent : mapIndex message "content" = JSON.str s) :
    (callDeepSeek client duration).ret = Returned.value s := by
  rw [callDeepSeek_ret_resp client duration statusCode body hdo,
    unmarshalMap_object body members hbody]
  simp [extractContent, hchoices, hmessage, hcontent]

/-- C1, at the body of the specification's example, where the answer is
exactly `Move now!`, and at a body with a second choice, a further field and
a content with blanks, markup and a line break, which comes back unchanged. -/
theorem callDeepSeek_returns_first_content_witness :
    (parseDocument "\x7b\"choices\":[\x7b\"message\":\x7b\"content\":\"Move now!\"\x7d\x7d]\x7d" =
        some (JSON.object [("choices", JSON.array
          [JSON.object [("message", JSON.object [("content", JSON.str "Move now!")])]])]) ∧
      (callDeepSeek
        (fun _ => DoResult.resp 200 "\x7b\"choices\":[\x7b\"message\":\x7b\"content\":\"Move now!\"\x7d\x7d]\x7d")
        1200).ret = Returned.value "Move now!") ∧
    (callDeepSeek
      (fun _ => DoResult.resp 500
        "\x7b\"id\":7,\"choices\":[\x7b\"message\":\x7b\"content\":\"  <b>Up</b>\\n \"\x7d\x7d,\x7b\"message\":null\x7d]\x7d")
      (-3)).ret = Returned.value "  <b>Up</b>\n " :=
  ⟨⟨rfl, callDeepSeek_returns_first_content
    (fun _ => DoResult.resp 200 "\x7b\"choices\":[\x7b\"message\":\x7b\"content\":\"Move now!\"\x7d\x7d]\x7d")
    1200 200 "\x7b\"choices\":[\x7b\"message\":\x7b\"content\":\"Move now!\"\x7d\x7d]\x7d"
    [("choices", JSON.array
      [JSON.object [("message", JSON.object [("content", JSON.str "Move now!")])]])]
    [("message", JSON.object [("content", JSON.str "Move now!")])]
    [("content", JSON.str "Move now!")] [] "Move now!" rfl rfl rfl rfl rfl⟩,
   callDeepSeek_returns_first_content
    (fun _ => DoResult.resp 500
      "\x7b\"id\":7,\"choices\":[\x7b\"message\":\x7b\"content\":\"  <b>Up</b>\\n \"\x7d\x7d,\x7b\"message\":null\x7d]\x7d")
    (-3) 500
    "\x7b\"id\":7,\"choices\":[\x7b\"message\":\x7b\"content\":\"  <b>Up</b>\\n \"\x7d\x7d,\x7b\"message\":null\x7d]\x7d"
    [("id", JSON.number "7"), ("choices", JSON.array
      [JSON.object [("message", JSON.object [("content", JSON.str "  <b>Up</b>\n ")])],
       JSON.object [("message", JSON.null)]])]
    [("message", JSON.object [("content", JSON.str "  <b>Up</b>\n ")])]
    [("content", JSON.str "  <b>Up</b>\n ")] [JSON.object [("message", JSON.null)]]
    "  <b>Up</b>\n " rfl rfl rfl rfl rfl⟩

/-- C2: on a response whose `choices` list is non-empty but whose first choice
lacks the expected structure, `callDeepSeek` does not return the fallback
string: it panics (first choice not an object, `message` missing, `message`
not an object, `content` missing, `content` not a string), and the caller of
the route gets no response at all; an empty `choices` list does reach the
fallback. -/
theorem callDeepSeek_panics_below_choices (duration : Int) :
    (callDeepSeek (fun _ => DoResult.resp 200 "\x7b\"choices\":[1]\x7d") duration).ret
        = Returned.panic ∧
      (callDeepSeek (fun _ => DoResult.resp 200 "\x7b\"choices\":[\x7b\x7d]\x7d") duration).ret
        = Returned.panic ∧
      (callDeepSeek (fun _ => DoResult.resp 200 "\x7b\"choices\":[\x7b\"message\":\"hi\"\x7d]\x7d")
        duration).ret = Returned.panic ∧
      (callDeepSeek (fun _ => DoResult.resp 200 "\x7b\"choices\":[\x7b\"message\":\x7b\x7d\x7d]\x7d")
        duration).ret = Returned.panic ∧
      (callDeepSeek
        (fun _ => DoResult.resp 200 "\x7b\"choices\":[\x7b\"message\":\x7b\"content\":null\x7d\x7d]\x7d")
        duration).ret = Returned.panic ∧
      (callDeepSeek (fun _ => DoResult.resp 200 "\x7b\"choices\":[]\x7d") duration).ret
        = Returned.value "Take a break! (AI Connection issue)" ∧
      response (serveAlert (fun _ => DoResult.resp 200 "\x7b\"choices\":[\x7b\x7d]\x7d")
        { Method := "POST", Path := "/api/alert", Header := [],
          Body := "\x7b\"duration_seconds\":1200\x7d" }) = none := by
  refine ⟨rfl, rfl, rfl, rfl, rfl, rfl, ?_⟩
  decide

/-- C3 as stated fails: on the body `{"choices":[]}` the string returned is
not `Take a break! (AI connection issue)`; the code's constant is spelled
with a capital `C`. -/
theorem callDeepSeek_fallback_spelling :
    (callDeepSeek (fun _ => DoResult.resp 200 "\x7b\"choices\":[]\x7d") 1200).ret
        ≠ Returned.value "Take a break! (AI connection issue)" ∧
      (callDeepSeek (fun _ => DoResult.resp 200 "\x7b\"choices\":[]\x7d") 1200).ret
        = Returned.value "Take a break! (AI Connection issue)" := by
  decide

/-- C3, amended: when the response body is a JSON object whose `choices` entry
is the empty array, or a JSON object without a `choices` member, `callDeepSeek`
returns exactly `Take a break! (AI Connection issue)`, for every duration. -/
theorem callDeepSeek_fallback (client : Client) (duration : Int) (statusCode : Nat)
    (body : String) (members : List (String × JSON))
    (hdo : client (newRequest duration) = DoResult.resp statusCode body)
    (hbody : parseDocument body = some (JSON.object members))
    (hshape : mapIndex members "choices" = JSON.array [] ∨
      ∀ kv ∈ members, kv.1 ≠ "choices") :
    (callDeepSeek client duration).ret =
      Returned.value "Take a break! (AI Connection issue)" := by
  rw [callDeepSeek_ret_resp client duration statusCode body hdo,
    unmarshalMap_object body members hbody]
  rcases hshape with hempty | habsent
  · simp [extractContent, hempty]
  · simp [extractContent, mapIndex_absent members "choices" habsent]

/-- C3, amended, at the two bodies of the specification: `{"choices":[]}`, and
an object that omits `choices`. -/
theorem callDeepSeek_fallback_witness :
    (callDeepSeek (fun _ => DoResult.resp 200 "\x7b\"choices\":[]\x7d") 1200).ret =
        Returned.value "Take a break! (AI Connection issue)" ∧
      (callDeepSeek (fun _ => DoResult.resp 200 "\x7b\"id\":\"x\",\"object\":null\x7d") 1200).ret =
        Returned.value "Take a break! (AI Connection issue)" :=
  ⟨callDeepSeek_fallback (fun _ => DoResult.resp 200 "\x7b\"choices\":[]\x7d") 1200 200
      "\x7b\"choices\":[]\x7d" [("choices", JSON.array [])] rfl rfl (Or.inl rfl),
    callDeepSeek_fallback (fun _ => DoResult.resp 200 "\x7b\"id\":\"x\",\"object\":null\x7d") 1200 200
      "\x7b\"id\":\"x\",\"object\":null\x7d" [("id", JSON.str "x"), ("object", JSON.null)] rfl rfl
      (Or.inr (by decide))⟩

/-- C4: when the outbound call fails in transport with error text `e`,
`callDeepSeek` returns (it does not panic) the string `Error calling AI: `
followed by `e`, for every duration. -/
theorem callDeepSeek_transport_failure (client : Client) (duration : Int) (e : String)
    (hdo : client (newRequest duration) = DoResult.err e) :
    (callDeepSeek client duration).ret = Returned.value ("Error calling AI: " ++ e) ∧
      (callDeepSeek client duration).ret ≠ Returned.panic := by
  rw [callDeepSeek_ret_err client duration e hdo]
  exact ⟨rfl, by simp⟩

/-- C4, at a timeout of the client. -/
theorem callDeepSeek_transport_failure_witness :
    (callDeepSeek (fun _ => DoResult.err "context deadline exceeded") 1200).ret =
        Returned.value "Error calling AI: context deadline exceeded" ∧
      (callDeepSeek (fun _ => DoResult.err "context deadline exceeded") 1200).ret ≠
        Returned.panic :=
  callDeepSeek_transport_failure (fun _ => DoResult.err "context deadline exceeded") 1200
    "context deadline exceeded" rfl

theorem digitChar_isDigit (k : Nat) (hk : k < 10) :
    isDigit (Nat.digitChar k) = true ∧ (Nat.digitChar k).toNat - 48 = k := by
  interval_cases k <;> decide

theorem toDigitsCore_digits (fuel : Nat) : ∀ (n : Nat) (ds : List Char), n < fuel →
    ∃ l : List Char, Nat.toDigitsCore 10 fuel n ds = l ++ ds ∧ l ≠ [] ∧
      l.all isDigit = true ∧ l.foldl (fun n c => n * 10 + (c.toNat - 48)) 0 = n := by
  induction fuel with
  | zero => intro n ds h; omega
  | succ fuel ih =>
      intro n ds hn
      have hd := digitChar_isDigit (n % 10) (Nat.mod_lt n (by norm_num))
      by_cases hq : n / 10 = 0
      · refine ⟨[Nat.digitChar (n % 10)], ?_, by simp, by simp [hd.1], ?_⟩
        · simp [Nat.toDigitsCore, hq]
        · simp only [List.foldl_cons, List.foldl_nil, hd.2]
          omega
      · have hlt : n / 10 < fuel := by omega
        obtain ⟨l, hl, hne, hall, hval⟩ := ih (n / 10) (Nat.digitChar (n % 10) :: ds) hlt
        refine ⟨l ++ [Nat.digitChar (n % 10)], ?_, by simp, ?_, ?_⟩
        · simp [Nat.toDigitsCore, hq, hl]
        · simp [List.all_append, hall, hd.1]
        · rw [List.foldl_append, hval]
          simp only [List.foldl_cons, List.foldl_nil, hd.2]
          omega

theorem repr_digits (n : Nat) :
    ∃ l : List Char, (Nat.repr n).data = l ∧ l ≠ [] ∧ l.all isDigit = true ∧
      l.foldl (fun n c => n * 10 + (c.toNat - 48)) 0 = n := by
  obtain ⟨l, hl, hne, hall, hval⟩ := toDigitsCore_digits (n + 1) n [] (Nat.lt_succ_self n)
  refine ⟨l, ?_, hne, hall, hval⟩
  simp [Nat.repr, Nat.toDigits, hl, List.asString]

theorem digitsValue_repr (n : Nat) : digitsValue (Nat.repr n).data = some n := by
  obtain ⟨l, hl, hne, hall, hval⟩ := repr_digits n
  rw [hl]
  unfold digitsValue
  cases l with
  | nil => exact absurd rfl hne
  | cons c cs => simp [hall, hval]

/-- Reading back what `%d` prints gives the number printed. -/
theorem readDecimal_fmtInt (d : Int) : readDecimal (fmtInt d) = some d := by
  cases d with
  | ofNat n =>
      obtain ⟨l, hl, hne, hall, hval⟩ := repr_digits n
      have hv := digitsValue_repr n
      unfold readDecimal fmtInt
      simp only
      rw [hl] at hv ⊢
      cases l with
      | nil => exact absurd rfl hne
      | cons c cs =>
          have hc : c ≠ '-' := by
            intro hc
            subst hc
            simp [isDigit] at hall
          split
          · rename_i ds heq
            injection heq with h1 h2
            exact absurd h1 hc
          · simp [hv]
  | negSucc n =>
      have hv := digitsValue_repr (n + 1)
      unfold readDecimal fmtInt
      simp only [String.data_append]
      show (match '-' :: (Nat.repr (n + 1)).data with
        | '-' :: ds => (digitsValue ds).map (fun n => -(n : Int))
        | ds => (digitsValue ds).map (fun n => (n : Int))) = some (Int.negSucc n)
      simp [hv, Int.negSucc_eq]

/-- C9: for every integer duration `d` the one request `callDeepSeek` sends
carries the model `deepseek-chat` and exactly two messages, the system message
`You are a helpful assistant.` and then the user message whose content is the
prompt; in the prompt the decimal rendering of `d` (the text that reads back
as `d`) stands between `... sitting still for ` and ` seconds. ...`; model and
system message are the same for all `d`. -/
theorem callDeepSeek_request (client : Client) (d : Int) :
    ∃ req : OutboundRequest, (callDeepSeek client d).outbound = [req] ∧
      req.Body.Model = "deepseek-chat" ∧
      req.Body.Messages =
        [{ Role := "system", Content := "You are a helpful assistant." },
         { Role := "user", Content := prompt d }] ∧
      prompt d = "The user has been sitting still for " ++ fmtInt d ++
        " seconds. Write a creative, varied, and very short (max 15 words) warning to get them moving. Don't be boring." ∧
      readDecimal (fmtInt d) = some d ∧
      fmtInt 0 = "0" ∧ fmtInt 1200 = "1200" ∧ fmtInt (-45) = "-45" :=
  ⟨newRequest d, callDeepSeek_outbound client d, rfl, rfl, rfl, readDecimal_fmtInt d,
    by decide, by decide, by decide⟩

/-! ## Properties of `handleAlert` and `corsMiddleware` -/

theorem storeMember_savedError (st : Decoding) (kv : String × JSON) :
    (storeMember st kv).savedError = (st.savedError || !memberFits kv) := by
  unfold storeMember memberFits
  cases hf : fieldOf kv.1 with
  | none => simp
  | some f =>
      cases f <;> cases hv : kv.2 <;> simp [isStringOrNull, isIntOrNull]
      case duration.number lit => cases hp : parseInt lit <;> simp

theorem foldl_storeMember_savedError (ms : List (String × JSON)) (st : Decoding) :
    (ms.foldl storeMember st).savedError = (st.savedError || !ms.all memberFits) := by
  induction ms generalizing st with
  | nil => simp
  | cons kv rest ih =>
      rw [List.foldl_cons, ih, storeMember_savedError, List.all_cons]
      cases st.savedError <;> cases memberFits kv <;> cases rest.all memberFits <;> rfl

/-- The decoder reports an error exactly on the values that are not
structurally valid for `AlertRequest`. -/
theorem unmarshalAlertRequest_eq_none (v : JSON) :
    unmarshalAlertRequest v = none ↔ fitsAlertRequest v = false := by
  cases v with
  | object ms =>
      simp only [unmarshalAlertRequest, fitsAlertRequest, foldl_storeMember_savedError]
      cases ms.all memberFits <;> simp
  | null => simp [unmarshalAlertRequest, fitsAlertRequest]
  | bool b => simp [unmarshalAlertRequest, fitsAlertRequest]
  | number lit => simp [unmarshalAlertRequest, fitsAlertRequest]
  | str s => simp [unmarshalAlertRequest, fitsAlertRequest]
  | array es => simp [unmarshalAlertRequest, fitsAlertRequest]

theorem handleAlert_of_decode_error (client : Client) (w : ResponseWriter) (r : Request)
    (hdec : decodeAlertRequest r.Body = none) :
    handleAlert client w r =
      { w := httpError w "Invalid JSON" 400, outbound := [], panicked := false } := by
  simp [handleAlert, hdec]

theorem handleAlert_of_value (client : Client) (w : ResponseWriter) (r : Request)
    (req : AlertRequest) (m : String) (hdec : decodeAlertRequest r.Body = some req)
    (hret : (callDeepSeek client req.Duration).ret = Returned.value m) :
    handleAlert client w r =
      { w := (w.setHeader "Content-Type" "application/json").write
          (Chunk.json { Message := m }),
        outbound := [newRequest req.Duration], panicked := false } := by
  simp [handleAlert, hdec, hret, callDeepSeek_outbound]

theorem handleAlert_of_panic (client : Client) (w : ResponseWriter) (r : Request)
    (req : AlertRequest) (hdec : decodeAlertRequest r.Body = some req)
    (hret : (callDeepSeek client req.Duration).ret = Returned.panic) :
    handleAlert client w r =
      { w := w, outbound := [newRequest req.Duration], panicked := true } := by
  simp [handleAlert, hdec, hret, callDeepSeek_outbound]

/-- C5 as stated fails: the body below is not a well-formed JSON text (a
complete object is followed by other text), yet the handler answers 200 and
the completion request for 1200 seconds is sent. -/
theorem handleAlert_trailing_text_served :
    parseDocument "\x7b\"duration_seconds\":1200\x7d this is not JSON" = none ∧
      (handleAlert (fun _ => DoResult.err "timeout") (freshWriter [])
        { Method := "POST", Path := "/api/alert", Header := [],
          Body := "\x7b\"duration_seconds\":1200\x7d this is not JSON" }).w.status = some 200 ∧
      (handleAlert (fun _ => DoResult.err "timeout") (freshWriter [])
        { Method := "POST", Path := "/api/alert", Header := [],
          Body := "\x7b\"duration_seconds\":1200\x7d this is not JSON" }).outbound =
        [newRequest 1200] := by
  refine ⟨rfl, ?_, ?_⟩ <;> decide

/-- C5, amended: when no first JSON value can be read from the body (empty
body, or a syntax error before the first value is complete), or when the
first value is structurally invalid for `AlertRequest` (neither `null` nor an
object, or an object in which `user_id` or `event` is not a string or
`duration_seconds` is not an integer fitting an `int`, `null` aside),
`handleAlert` answers 400 with the text `Invalid JSON` and makes no outbound
request. -/
theorem handleAlert_rejects_invalid_body (client : Client) (h : List (String × String))
    (r : Request)
    (hbad : readValue r.Body = none ∨
      ∃ v rest, readValue r.Body = some (v, rest) ∧ fitsAlertRequest v = false) :
    (handleAlert client (freshWriter h) r).outbound = [] ∧
      (handleAlert client (freshWriter h) r).panicked = false ∧
      (handleAlert client (freshWriter h) r).w.status = some 400 ∧
      (handleAlert client (freshWriter h) r).w.body = [Chunk.text "Invalid JSON\n"] := by
  have hdec : decodeAlertRequest r.Body = none := by
    rcases hbad with hnone | ⟨v, rest, hv, hfit⟩
    · simp [decodeAlertRequest, hnone]
    · simp [decodeAlertRequest, hv, (unmarshalAlertRequest_eq_none v).mpr hfit]
  rw [handleAlert_of_decode_error client (freshWriter h) r hdec]
  exact ⟨rfl, rfl, rfl, rfl⟩

/-- C5, amended, at a body that is not JSON and at a body whose
`duration_seconds` is not an integer. -/
theorem handleAlert_rejects_invalid_body_witness :
    (readValue "not json" = none ∧
      (handleAlert (fun _ => DoResult.err "timeout") (freshWriter [])
          { Method := "POST", Path := "/api/alert", Header := [],
            Body := "not json" }).outbound = [] ∧
      (handleAlert (fun _ => DoResult.err "timeout") (freshWriter [])
          { Method := "POST", Path := "/api/alert", Header := [],
            Body := "not json" }).w.status = some 400) ∧
    (fitsAlertRequest (JSON.object [("duration_seconds", JSON.number "12.5")]) = false ∧
      (handleAlert (fun _ => DoResult.err "timeout") (freshWriter [])
          { Method := "POST", Path := "/api/alert", Header := [],
            Body := "\x7b\"duration_seconds\":12.5\x7d" }).outbound = [] ∧
      (handleAlert (fun _ => DoResult.err "timeout") (freshWriter [])
          { Method := "POST", Path := "/api/alert", Header := [],
            Body := "\x7b\"duration_seconds\":12.5\x7d" }).w.status = some 400) :=
  have hnot := handleAlert_rejects_invalid_body (fun _ => DoResult.err "timeout") []
    { Method := "POST", Path := "/api/alert", Header := [], Body := "not json" }
    (Or.inl rfl)
  have hfrac := handleAlert_rejects_invalid_body (fun _ => DoResult.err "timeout") []
    { Method := "POST", Path := "/api/alert", Header := [],
      Body := "\x7b\"duration_seconds\":12.5\x7d" }
    (Or.inr ⟨JSON.object [("duration_seconds", JSON.number "12.5")], [], rfl,
      by decide⟩)
  ⟨⟨rfl, hnot.1, hnot.2.2.1⟩, ⟨by decide, hfrac.1, hfrac.2.2.1⟩⟩

theorem extractContent_value (result : List (String × JSON)) (m : String)
    (hret : extractContent result = Returned.value m) :
    m = "Take a break! (AI Connection issue)" ∨
      ∃ choice others message,
        mapIndex result "choices" = JSON.array (JSON.object choice :: others) ∧
        mapIndex choice "message" = JSON.object message ∧
        mapIndex message "content" = JSON.str m := by
  unfold extractContent at hret
  split at hret
  · rename_i first others hchoices
    split at hret
    · rename_i choice
      split at hret
      · rename_i message hmessage
        split at hret
        · rename_i s hcontent
          injection hret with hs
          subst hs
          exact Or.inr ⟨choice, others, message, hchoices, hmessage, hcontent⟩
        · cases hret
      · cases hret
    · cases hret
  · injection hret with hs
    exact Or.inl hs.symm

theorem error_text_ne_empty (e : String) : "Error calling AI: " ++ e ≠ "" := by
  intro hempty
  have hlen := congrArg String.length hempty
  rw [String.length_append] at hlen
  have hpos : ("Error calling AI: ").length = 18 := by decide
  have hzero : ("").length = 0 := by decide
  omega

/-- C6 as stated fails: the body is a valid `AlertRequest` and the outbound
call succeeds with a first choice whose content is the empty string; the
handler answers 200 with the message `""`, which is empty. -/
theorem handleAlert_empty_message :
    response (handleAlert
        (fun _ => DoResult.resp 200 "\x7b\"choices\":[\x7b\"message\":\x7b\"content\":\"\"\x7d\x7d]\x7d")
        (freshWriter [])
        { Method := "POST", Path := "/api/alert", Header := [],
          Body := "\x7b\"user_id\":\"u1\",\"event\":\"sedentary\",\"duration_seconds\":1200\x7d" }) =
      some { status := 200, header := [("Content-Type", "application/json")],
             body := [Chunk.json { Message := "" }] } := by
  decide

/-- C6, amended: when the body decodes into an `AlertRequest` and
`callDeepSeek` returns a string `m` for its duration, `handleAlert` answers
with status 200, content type `application/json` and the body
`{"message": m}` with exactly that `m`; `m` is empty only when the outbound
call succeeded and the content of the first choice's message is the empty
string. -/
theorem handleAlert_relays_returned_string (client : Client) (h : List (String × String))
    (r : Request) (req : AlertRequest) (m : String)
    (hdec : decodeAlertRequest r.Body = some req)
    (hret : (callDeepSeek client req.Duration).ret = Returned.value m) :
    response (handleAlert client (freshWriter h) r) =
        some { status := 200, header := headerSet h "Content-Type" "application/json",
               body := [Chunk.json { Message := m }] } ∧
      (m = "" → ∃ statusCode body choice others message,
        client (newRequest req.Duration) = DoResult.resp statusCode body ∧
        mapIndex (unmarshalMap body) "choices" = JSON.array (JSON.object choice :: others) ∧
        mapIndex choice "message" = JSON.object message ∧
        mapIndex message "content" = JSON.str "") := by
  refine ⟨?_, ?_⟩
  · rw [handleAlert_of_value client (freshWriter h) r req m hdec hret]
    rfl
  · intro hm
    subst hm
    cases hdo : client (newRequest req.Duration) with
    | err e =>
        rw [callDeepSeek_ret_err client req.Duration e hdo] at hret
        injection hret with he
        exact absurd he (error_text_ne_empty e)
    | resp statusCode body =>
        rw [callDeepSeek_ret_resp client req.Duration statusCode body hdo] at hret
        rcases extractContent_value _ _ hret with hfb | ⟨choice, others, message, h1, h2, h3⟩
        · exact absurd hfb (by decide)
        · exact ⟨statusCode, body, choice, others, message, rfl, h1, h2, h3⟩

/-- C6, amended, on a transport failure and on a well-formed completion. -/
theorem handleAlert_relays_returned_string_witness :
    response (handleAlert (fun _ => DoResult.err "connection refused") (freshWriter [])
        { Method := "POST", Path := "/api/alert", Header := [],
          Body := "\x7b\"user_id\":\"u1\",\"event\":\"sedentary\",\"duration_seconds\":1200\x7d" }) =
      some { status := 200, header := headerSet [] "Content-Type" "application/json",
             body := [Chunk.json { Message := "Error calling AI: connection refused" }] } ∧
    response (handleAlert
        (fun _ => DoResult.resp 200 "\x7b\"choices\":[\x7b\"message\":\x7b\"content\":\"Move now!\"\x7d\x7d]\x7d")
        (freshWriter [])
        { Method := "POST", Path := "/api/alert", Header := [],
          Body := "\x7b\"duration_seconds\":60\x7d" }) =
      some { status := 200, header := headerSet [] "Content-Type" "application/json",
             body := [Chunk.json { Message := "Move now!" }] } :=
  ⟨(handleAlert_relays_returned_string (fun _ => DoResult.err "connection refused") []
      { Method := "POST", Path := "/api/alert", Header := [],
        Body := "\x7b\"user_id\":\"u1\",\"event\":\"sedentary\",\"duration_seconds\":1200\x7d" }
      { UserID := "u1", Event := "sedentary", Duration := 1200 }
      "Error calling AI: connection refused" (by decide) (by decide)).1,
    (handleAlert_relays_returned_string
      (fun _ => DoResult.resp 200 "\x7b\"choices\":[\x7b\"message\":\x7b\"content\":\"Move now!\"\x7d\x7d]\x7d") []
      { Method := "POST", Path := "/api/alert", Header := [],
        Body := "\x7b\"duration_seconds\":60\x7d" }
      { UserID := "", Event := "", Duration := 60 } "Move now!" (by decide) (by decide)).1⟩

/-- C7: for every request with method `OPTIONS`, whatever its body and
headers and whatever handler is wrapped, `corsMiddleware` answers with status
200, an empty body and the three CORS headers, makes no outbound request and
does not run the wrapped handler (the outcome is the same for every wrapped
handler). -/
theorem corsMiddleware_options (next : HandlerFunc) (r : Request)
    (hm : r.Method = "OPTIONS") :
    corsMiddleware next (freshWriter []) r =
        { w := { header :=
                   [("Access-Control-Allow-Origin", "*"),
                    ("Access-Control-Allow-Methods", "POST, GET, OPTIONS, PUT, DELETE"),
                    ("Access-Control-Allow-Headers",
                     "Accept, Content-Type, Content-Length, Accept-Encoding, X-CSRF-Token, Authorization")],
                 status := some 200, body := [] },
          outbound := [], panicked := false } := by
  simp only [corsMiddleware, hm, if_true]
  rfl

/-- C7, at a preflight of the alert route that carries a decodable body and
would otherwise reach a panicking completion. -/
theorem corsMiddleware_options_witness :
    response (serveAlert (fun _ => DoResult.resp 200 "\x7b\"choices\":[\x7b\x7d]\x7d")
        { Method := "OPTIONS", Path := "/api/alert",
          Header := [("Content-Type", "application/json")],
          Body := "\x7b\"duration_seconds\":1200\x7d" }) =
      some { status := 200,
             header :=
               [("Access-Control-Allow-Origin", "*"),
                ("Access-Control-Allow-Methods", "POST, GET, OPTIONS, PUT, DELETE"),
                ("Access-Control-Allow-Headers",
                 "Accept, Content-Type, Content-Length, Accept-Encoding, X-CSRF-Token, Authorization")],
             body := [] } :=
  congrArg response (corsMiddleware_options
    (handleAlert (fun _ => DoResult.resp 200 "\x7b\"choices\":[\x7b\x7d]\x7d"))
    { Method := "OPTIONS", Path := "/api/alert",
      Header := [("Content-Type", "application/json")],
      Body := "\x7b\"duration_seconds\":1200\x7d" } rfl)

theorem serveAlert_of_not_options (client : Client) (r : Request)
    (hm : r.Method ≠ "OPTIONS") :
    serveAlert client r = handleAlert client corsWriter r := by
  simp [serveAlert, corsMiddleware, hm, corsWriter]

theorem serveAlert_of_options (client : Client) (r : Request) (hm : r.Method = "OPTIONS") :
    serveAlert client r =
      { w := corsWriter.writeHeader 200, outbound := [], panicked := false } := by
  simp [serveAlert, corsMiddleware, hm, corsWriter]

/-- The three ways the route can end on a request: the preflight answer, the
400 answer, the 200 answer with some message, or a panic. -/
theorem serveAlert_cases (client : Client) (r : Request) :
    serveAlert client r =
        { w := corsWriter.writeHeader 200, outbound := [], panicked := false } ∨
      serveAlert client r =
        { w := httpError corsWriter "Invalid JSON" 400, outbound := [], panicked := false } ∨
      (∃ (req : AlertRequest) (m : String), serveAlert client r =
        { w := (corsWriter.setHeader "Content-Type" "application/json").write
            (Chunk.json { Message := m }),
          outbound := [newRequest req.Duration], panicked := false }) ∨
      (∃ req : AlertRequest, serveAlert client r =
        { w := corsWriter, outbound := [newRequest req.Duration], panicked := true }) := by
  by_cases hm : r.Method = "OPTIONS"
  · exact Or.inl (serveAlert_of_options client r hm)
  · rw [serveAlert_of_not_options client r hm]
    cases hdec : decodeAlertRequest r.Body with
    | none => exact Or.inr (Or.inl (handleAlert_of_decode_error client corsWriter r hdec))
    | some req =>
        cases hret : (callDeepSeek client req.Duration).ret with
        | value m =>
            exact Or.inr (Or.inr (Or.inl
              ⟨req, m, handleAlert_of_value client corsWriter r req m hdec hret⟩))
        | panic =>
            exact Or.inr (Or.inr (Or.inr
              ⟨req, handleAlert_of_panic client corsWriter r req hdec hret⟩))

/-- C8: every response of the alert route, for every method, body and
outcome of the outbound call, carries `Access-Control-Allow-Origin: *`. -/
theorem serveAlert_allow_origin (client : Client) (r : Request) (resp : Response)
    (hresp : response (serveAlert client r) = some resp) :
    headerGet resp.header "Access-Control-Allow-Origin" = some "*" := by
  rcases serveAlert_cases client r with hs | hs | ⟨req, m, hs⟩ | ⟨req, hs⟩
  · rw [hs] at hresp
    injection hresp with hresp
    subst hresp
    decide
  · rw [hs] at hresp
    injection hresp with hresp
    subst hresp
    decide
  · rw [hs] at hresp
    injection hresp with hresp
    subst hresp
    rfl
  · rw [hs] at hresp
    cases hresp

/-- C8, on the preflight answer, the 400 answer and the 200 answer. -/
theorem serveAlert_allow_origin_witness :
    (∃ resp, response (serveAlert (fun _ => DoResult.err "timeout")
        { Method := "OPTIONS", Path := "/api/alert", Header := [], Body := "" }) = some resp ∧
      resp.status = 200 ∧
      headerGet resp.header "Access-Control-Allow-Origin" = some "*") ∧
    (∃ resp, response (serveAlert (fun _ => DoResult.err "timeout")
        { Method := "POST", Path := "/api/alert", Header := [], Body := "not json" }) =
        some resp ∧ resp.status = 400 ∧
      headerGet resp.header "Access-Control-Allow-Origin" = some "*") ∧
    (∃ resp, response (serveAlert (fun _ => DoResult.err "timeout")
        { Method := "POST", Path := "/api/alert", Header := [],
          Body := "\x7b\"duration_seconds\":1200\x7d" }) = some resp ∧ resp.status = 200 ∧
      headerGet resp.header "Access-Control-Allow-Origin" = some "*") :=
  ⟨⟨_, rfl, rfl, serveAlert_allow_origin (fun _ => DoResult.err "timeout")
      { Method := "OPTIONS", Path := "/api/alert", Header := [], Body := "" } _ rfl⟩,
    ⟨_, rfl, rfl, serveAlert_allow_origin (fun _ => DoResult.err "timeout")
      { Method := "POST", Path := "/api/alert", Header := [], Body := "not json" } _ rfl⟩,
    ⟨_, rfl, rfl, serveAlert_allow_origin (fun _ => DoResult.err "timeout")
      { Method := "POST", Path := "/api/alert", Header := [],
        Body := "\x7b\"duration_seconds\":1200\x7d" } _ rfl⟩⟩

/-- C10: two requests with a method other than `OPTIONS` whose bodies decode
to `AlertRequest`s with the same duration are served alike, whatever their
`user_id`, `event`, method and headers: each sends the same single outbound
request, and when the outbound call has the same outcome for both, the whole
outcome of serving (status, headers, message, or the panic) is the same. -/
theorem serveAlert_depends_on_duration_only (client1 client2 : Client) (r1 r2 : Request)
    (a1 a2 : AlertRequest)
    (hm1 : r1.Method ≠ "OPTIONS") (hm2 : r2.Method ≠ "OPTIONS")
    (hdec1 : decodeAlertRequest r1.Body = some a1)
    (hdec2 : decodeAlertRequest r2.Body = some a2)
    (hdur : a1.Duration = a2.Duration)
    (hsame : client1 (newRequest a1.Duration) = client2 (newRequest a1.Duration)) :
    (serveAlert client1 r1).outbound = [newRequest a1.Duration] ∧
      (serveAlert client2 r2).outbound = [newRequest a1.Duration] ∧
      serveAlert client1 r1 = serveAlert client2 r2 := by
  rw [serveAlert_of_not_options client1 r1 hm1, serveAlert_of_not_options client2 r2 hm2]
  have hcall : callDeepSeek client2 a2.Duration = callDeepSeek client1 a1.Duration := by
    rw [← hdur]
    exact (callDeepSeek_congr client1 client2 a1.Duration hsame).symm
  cases hret : (callDeepSeek client1 a1.Duration).ret with
  | value m =>
      have hret2 : (callDeepSeek client2 a2.Duration).ret = Returned.value m := by
        rw [hcall]; exact hret
      rw [handleAlert_of_value client1 corsWriter r1 a1 m hdec1 hret,
        handleAlert_of_value client2 corsWriter r2 a2 m hdec2 hret2, ← hdur]
      exact ⟨rfl, rfl, rfl⟩
  | panic =>
      have hret2 : (callDeepSeek client2 a2.Duration).ret = Returned.panic := by
        rw [hcall]; exact hret
      rw [handleAlert_of_panic client1 corsWriter r1 a1 hdec1 hret,
        handleAlert_of_panic client2 corsWriter r2 a2 hdec2 hret2, ← hdur]
      exact ⟨rfl, rfl, rfl⟩

/-- C10, at a POST and a GET that differ in `user_id`, `event`, method and
headers and agree on the duration. -/
theorem serveAlert_depends_on_duration_only_witness :
    serveAlert (fun _ => DoResult.err "timeout")
        { Method := "POST", Path := "/api/alert",
          Header := [("Content-Type", "application/json")],
          Body := "\x7b\"user_id\":\"u1\",\"event\":\"sedentary\",\"duration_seconds\":1200\x7d" } =
      serveAlert (fun _ => DoResult.err "timeout")
        { Method := "GET", Path := "/api/alert", Header := [("Content-Type", "text/plain")],
          Body := "\x7b\"duration_seconds\":1200,\"event\":\"other\",\"user_id\":\"u2\"\x7d" } :=
  (serveAlert_depends_on_duration_only (fun _ => DoResult.err "timeout")
    (fun _ => DoResult.err "timeout")
    { Method := "POST", Path := "/api/alert",
      Header := [("Content-Type", "application/json")],
      Body := "\x7b\"user_id\":\"u1\",\"event\":\"sedentary\",\"duration_seconds\":1200\x7d" }
    { Method := "GET", Path := "/api/alert", Header := [("Content-Type", "text/plain")],
      Body := "\x7b\"duration_seconds\":1200,\"event\":\"other\",\"user_id\":\"u2\"\x7d" }
    { UserID := "u1", Event := "sedentary", Duration := 1200 }
    { UserID := "u2", Event := "other", Duration := 1200 }
    (by decide) (by decide) (by decide) (by decide) rfl rfl).2.2

end LISA
